import Mathlib

/-!
Shallow embedding of the core logic of the `english_kids_mcp` tutoring server
(files `srs.py`, `evaluation.py`, `curriculum.py`, `server.py`), together with
theorems settling the specification claims about it.

Machine floats of the Python source are modelled as exact rationals (all the
arithmetic involved is `+`, `*`, `max`, `min` on decimal constants); Python
`datetime` values are modelled as rational timestamps; the mutable
`dataclass` records become immutable structures with explicit state passing.
-/

namespace EnglishKidsMcp

/-! ### Exact rational arithmetic helpers

The library's `Rat.add` and `Rat.mul` are `@[irreducible]`, which prevents
concrete evaluation inside `decide`/`rfl` proofs.  `qadd` and `qmul` are the
same exact operations written through `mkRat` (proved equal to `+` and `*`
below) and are used in the embedding wherever the Python source adds or
multiplies floats. -/

/-- Exact rational addition through `mkRat`; equal to `a + b`. -/
def qadd (a b : ℚ) : ℚ := mkRat (a.num * b.den + b.num * a.den) (a.den * b.den)

/-- Exact rational multiplication through `mkRat`; equal to `a * b`. -/
def qmul (a b : ℚ) : ℚ := mkRat (a.num * b.num) (a.den * b.den)

theorem qadd_eq (a b : ℚ) : qadd a b = a + b := (Rat.add_def' a b).symm

theorem qmul_eq (a b : ℚ) : qmul a b = a * b := by
  rw [qmul, Rat.mul_def, Rat.normalize_eq_mkRat]

/-! ### srs.py -/

/-- `SRSItem` dataclass (srs.py): per-item spaced-repetition record.
`due_at` is a timestamp; `timedelta(days=interval)` becomes `now + interval`
in day units. -/
structure SRSItem where
  ease : ℚ
  interval_days : ℚ
  due_at : ℚ
  streak : ℤ
deriving Repr, DecidableEq

/-- The constant `1.3` of srs.py. -/
def easeFloor : ℚ := mkRat 13 10

/-- The constant `0.8` of srs.py. -/
def shrinkFactor : ℚ := mkRat 4 5

/-- The constant `0.05` of srs.py. -/
def easeStep : ℚ := mkRat 1 20

/-- The constant `2.5` of srs.py. -/
def easeCap : ℚ := mkRat 5 2

/-- Default `SRSItem()` constructor values (srs.py lines 12-15). -/
def SRSItem.default : SRSItem :=
  { ease := easeFloor, interval_days := 0, due_at := 0, streak := 0 }

/-- `SRSItem.schedule` (srs.py lines 17-38).  The Python method mutates
`self` and returns `None`; here it returns the updated record.  Outcomes
other than the three known strings fall through every `if` and leave the
record unchanged (the Python method simply returns without touching any
field).  In the `pass` branch, `self.interval_days if self.interval_days
else 1.0` tests float truthiness, i.e. whether the interval is nonzero. -/
def SRSItem.schedule (r : SRSItem) (outcome : String) (now : ℚ) : SRSItem :=
  if outcome = "fail" then
    { ease := easeFloor, interval_days := 0, due_at := now, streak := 0 }
  else if outcome = "partial" then
    let interval := max 1 (qmul (max r.interval_days 1) shrinkFactor)
    { r with interval_days := interval, due_at := qadd now interval }
  else if outcome = "pass" then
    let ease := min (qadd r.ease easeStep) easeCap
    let interval := qmul (max 1 (if r.interval_days ≠ 0 then r.interval_days else 1)) ease
    { ease := ease, interval_days := interval, due_at := qadd now interval,
      streak := r.streak + 1 }
  else
    r

/-! ### evaluation.py -/

/-- The apostrophe character, part of the token class `[a-zA-Z']+`. -/
def apostropheChar : Char := Char.ofNat 39

/-- Character class of `TOKEN_RE = [a-zA-Z']+` (evaluation.py line 10):
ASCII letters and the apostrophe. -/
def isTokenChar (c : Char) : Bool := c.isAlpha || c == apostropheChar

/-- Helper for `tokenize`: splits a character list into maximal runs of
token characters (the matches of `TOKEN_RE.finditer`).  `acc` holds the
current run in reverse. -/
def tokenizeAux : List Char → List Char → List (List Char)
  | [], acc => if acc = [] then [] else [acc.reverse]
  | c :: cs, acc =>
    if isTokenChar c then tokenizeAux cs (c :: acc)
    else if acc = [] then tokenizeAux cs []
    else acc.reverse :: tokenizeAux cs []

/-- `tokenize` (evaluation.py lines 25-26): regex matches of `[a-zA-Z']+`,
lowercased.  Both Python `str.lower` and `Char.toLower` only change ASCII
letters here, since tokens consist of ASCII letters and apostrophes. -/
def tokenize (s : String) : List String :=
  (tokenizeAux s.data []).map fun cs => String.mk (cs.map Char.toLower)

/-- `len({token for token in predicted if token in target})` — the number of
distinct predicted tokens that occur in the target (evaluation.py line 35). -/
def overlapCount (predicted target : List String) : ℕ :=
  ((predicted.filter fun t => decide (t ∈ target)).dedup).length

/-- `compare_tokens` (evaluation.py lines 29-38): returns
`(meaning_score, form_score)`. -/
def compare_tokens (predicted target : List String) : ℕ × ℕ :=
  if predicted = [] then (0, 0)
  else
    let overlap := overlapCount predicted target
    ((if max 1 (target.length / 2) ≤ overlap then 2
      else if overlap ≠ 0 then 1 else 0),
     (if predicted = target then 2
      else if overlap ≠ 0 then 1 else 0))

/-- `EvaluationResult` dataclass (evaluation.py lines 13-22). -/
structure EvaluationResult where
  meaning : ℕ
  form : ℕ
  pronunciation : ℕ
  fluency : ℕ
deriving Repr, DecidableEq

/-- `EvaluationResult.total` (evaluation.py lines 20-22). -/
def EvaluationResult.total (e : EvaluationResult) : ℕ :=
  e.meaning + e.form + e.pronunciation + e.fluency

/-- The empty string (Python falsiness test `if utterance`). -/
def emptyString : String := ""

/-- The dot character of the ellipsis marker "...". -/
def dotChar : Char := Char.ofNat 46

/-- Python `str.strip()`: removes leading and trailing whitespace.
(Python strips all Unicode whitespace; `Char.isWhitespace` covers space,
tab, carriage return and newline, which is what occurs in practice.) -/
def pyStrip (s : String) : String :=
  String.mk (((s.data.dropWhile Char.isWhitespace).reverse.dropWhile
    Char.isWhitespace).reverse)

/-- Python `str.endswith("...")`: the last three characters are dots. -/
def endsWithDots (s : String) : Bool :=
  decide (s.data.reverse.take 3 = [dotChar, dotChar, dotChar])

/-- `evaluate_utterance` (evaluation.py lines 41-51). -/
def evaluate_utterance (utterance target_phrase : String) : EvaluationResult :=
  let utter_tokens := tokenize utterance
  let target_tokens := tokenize target_phrase
  let mf := compare_tokens utter_tokens target_tokens
  let pronunciation := if utter_tokens ≠ [] then 1 else 0
  let fluency :=
    if utterance ≠ emptyString ∧ endsWithDots (pyStrip utterance) = false then 1
    else 0
  { meaning := mf.1, form := mf.2, pronunciation := pronunciation,
    fluency := fluency }

/-- `score_to_outcome` (evaluation.py lines 54-59). -/
def score_to_outcome (score : ℕ) : String :=
  if score ≤ 2 then "fail"
  else if score ≤ 4 then "partial"
  else "pass"

/-- `mastery_delta_for_outcome` (evaluation.py lines 62-67). -/
def mastery_delta_for_outcome (outcome : String) : ℤ :=
  if outcome = "fail" then -1
  else if outcome = "partial" then 0
  else 2

/-- `xp_for_outcome` (evaluation.py lines 70-71). -/
def xp_for_outcome (outcome : String) : ℕ :=
  if outcome = "pass" then 5 else if outcome = "partial" then 2 else 0

/-! ### curriculum.py

`CurriculumItem` (curriculum.py lines 11-18).  The `patterns` field and
`for_prompt` (a random pattern choice trimmed to a token budget) only shape
the presentational `prompt_text` and are not modelled; the age band string
"lo-hi" is modelled as the parsed pair of its bounds. -/
structure CurriculumItem where
  track : String
  item_id : String
  min_age : ℤ
  max_age : ℤ
  target : String
deriving Repr, DecidableEq

/-- `Curriculum.for_goal_and_age` (curriculum.py lines 71-77): filters the
catalog, in order, by track equality and age-range overlap. -/
def forGoalAndAge (catalog : List CurriculumItem) (goal : String) (lo hi : ℤ) :
    List CurriculumItem :=
  catalog.filter fun item =>
    decide (item.track = goal ∧ item.min_age ≤ hi ∧ lo ≤ item.max_age)

/-! ### server.py data model

The session-state dictionary (server.py lines 190-201), its `pending`
sub-dictionary, and the response dataclasses of schemas.py.  Presentational
string fields (`prompt_text`, `scaffold_cn`, `rubric`, `feedback_text`,
lexicon hint words from the external `ReferenceLexicon`, and the randomly
chosen "pass" feedback message) are not modelled; every field that takes
part in the control flow is. -/

/-- The `pending` activity dictionary stored in session state
(server.py lines 402-406 and 453-464). -/
structure Pending where
  item_id : String
  target : String
  attempts : ℕ
deriving Repr, DecidableEq

/-- The modelled fields of the `Activity` dataclass (schemas.py lines 9-17). -/
structure Activity where
  target_phrase : String
  timebox_sec : ℕ
  item_id : String
deriving Repr, DecidableEq

/-- The `Award` dataclass (schemas.py lines 20-24). -/
structure Award where
  xp : ℕ
  stickers : ℕ
deriving Repr, DecidableEq

/-- The modelled fields of the `Feedback` dataclass (schemas.py lines 27-34). -/
structure Feedback where
  mastery_delta : ℤ
  award : Option Award
  next_activity : Option Activity
  review_card : Option Activity
deriving Repr, DecidableEq

/-- One entry of the append-only attempt log (server.py lines 266-271). -/
structure AttemptLog where
  item_id : String
  outcome : String
  score : ℕ
  timestamp : ℚ
deriving Repr, DecidableEq

/-- The per-session state dictionary (server.py lines 190-201).  The age
band string is carried as its parsed bounds `ageLo`/`ageHi`. -/
structure SessionState where
  user_id : String
  ageLo : ℤ
  ageHi : ℤ
  goal : String
  locale : String
  xp : ℕ
  stickers : ℕ
  pending : Option Pending
  new_cursor : ℕ
  new_since_review : ℕ
  attempts : List AttemptLog
deriving Repr, DecidableEq

/-- The fresh session state created by `start_session` for a new learner
(server.py lines 190-201). -/
def freshState (user_id : String) (ageLo ageHi : ℤ) (goal locale : String) :
    SessionState :=
  { user_id := user_id, ageLo := ageLo, ageHi := ageHi, goal := goal,
    locale := locale, xp := 0, stickers := 0, pending := none,
    new_cursor := 0, new_since_review := 0, attempts := [] }

/-! ### server.py: the Scheduler (`_plan_next_activity`)

The learner's per-item SRS records (`self._load_srs(user_id)`) are passed
as a map from item id to record; "now" is the timestamp sampled once per
operation. -/

/-- Whether a curriculum item is due: it has an SRS record whose `due_at`
is at or before now (server.py lines 412-417). -/
def isDue (srs : String → Option SRSItem) (now : ℚ) (item : CurriculumItem) :
    Bool :=
  match srs item.item_id with
  | some r => decide (r.due_at ≤ now)
  | none => false

/-- The sort key of `due_items.sort(key=lambda item: srs_state[item.item_id].due_at)`
(server.py line 418). -/
def dueKey (srs : String → Option SRSItem) (item : CurriculumItem) : ℚ :=
  match srs item.item_id with
  | some r => r.due_at
  | none => 0

/-- Stable insertion of an item into a due-date-sorted list: the item goes
in front of the first element whose key is at least its own. -/
def orderedInsertDue (srs : String → Option SRSItem) (x : CurriculumItem) :
    List CurriculumItem → List CurriculumItem
  | [] => [x]
  | y :: ys =>
    if dueKey srs x ≤ dueKey srs y then x :: y :: ys
    else y :: orderedInsertDue srs x ys

/-- `due_items.sort(key=...)` (server.py line 418): CPython's `list.sort`
is a stable ascending sort by the key; insertion sort with `orderedInsertDue`
has exactly that semantics. -/
def sortByDue (srs : String → Option SRSItem) :
    List CurriculumItem → List CurriculumItem
  | [] => []
  | x :: xs => orderedInsertDue srs x (sortByDue srs xs)

/-- The sorted list of due candidate items (server.py lines 412-418). -/
def dueItemsOf (options : List CurriculumItem) (srs : String → Option SRSItem)
    (now : ℚ) : List CurriculumItem :=
  sortByDue srs (options.filter (isDue srs now))

/-- Specification device for the stable sort: the first element of a list
attaining the minimal key — which is what `due_items.sort(...)[0]`
selects (earliest due date, ties broken by catalog order). -/
def firstMinBy (key : CurriculumItem → ℚ) :
    List CurriculumItem → Option CurriculumItem
  | [] => none
  | x :: l =>
    match firstMinBy key l with
    | none => some x
    | some y => some (if key x ≤ key y then x else y)

/-- Candidate items without an SRS record yet (server.py line 419). -/
def newItemsOf (options : List CurriculumItem) (srs : String → Option SRSItem) :
    List CurriculumItem :=
  options.filter fun item => (srs item.item_id).isNone

/-- Construction of the returned `Activity` and of the new pending record
from the chosen item (server.py lines 437-466); the session's pending
activity is replaced and its attempt counter reset to 0. -/
def finishPlan (chosen : CurriculumItem) (s : SessionState) :
    Option (Activity × SessionState) :=
  some ({ target_phrase := chosen.target, timebox_sec := 12,
          item_id := chosen.item_id },
        { s with pending := some { item_id := chosen.item_id,
                                   target := chosen.target, attempts := 0 } })

/-- `_plan_next_activity` (server.py lines 401-466).  `options` is
`self.curriculum.for_goal_and_age(state["goal"], state["age_band"])`;
an empty candidate list raises `ValueError` in the source, modelled as
`none`.  Priority: due-but-throttled override, new-item round robin,
due fallback, exhausted round robin. -/
def planNextActivity (options : List CurriculumItem)
    (srs : String → Option SRSItem) (now : ℚ) (s : SessionState) :
    Option (Activity × SessionState) :=
  if h0 : options = [] then none
  else
    if h1 : dueItemsOf options srs now ≠ [] ∧ 2 ≤ s.new_since_review then
      finishPlan ((dueItemsOf options srs now).head h1.1)
        { s with new_since_review := 0 }
    else if h2 : newItemsOf options srs ≠ [] then
      finishPlan ((newItemsOf options srs).get
          ⟨s.new_cursor % (newItemsOf options srs).length,
           Nat.mod_lt _ (List.length_pos.mpr h2)⟩)
        { s with new_cursor := s.new_cursor + 1,
                 new_since_review := s.new_since_review + 1 }
    else if h3 : dueItemsOf options srs now ≠ [] then
      finishPlan ((dueItemsOf options srs now).head h3)
        { s with new_since_review := 0 }
    else
      finishPlan (options.get
          ⟨s.new_cursor % options.length,
           Nat.mod_lt _ (List.length_pos.mpr h0)⟩)
        { s with new_cursor := s.new_cursor + 1 }

/-- `_make_review_card` (server.py lines 468-478): a simplified activity
reusing the pending target with a 15 second time box. -/
def makeReviewCard (p : Pending) : Activity :=
  { target_phrase := p.target, timebox_sec := 15, item_id := p.item_id }

/-- The XP / sticker update of `submit_utterance` (server.py lines 245-257):
XP grows by the delta; inside the `if xp_delta:` block a sticker is added
when the new XP total, integer-divided by 20, exceeds the sticker count. -/
def applyXp (xp stickers xp_delta : ℕ) : ℕ × ℕ :=
  (xp + xp_delta,
   if xp_delta ≠ 0 ∧ stickers < (xp + xp_delta) / 20 then stickers + 1
   else stickers)

/-- The body of `submit_utterance` once a pending activity `p` is at hand
(server.py lines 240-296).  Returns the feedback, the updated session
state, and the SRS record persisted for the attempted item.  On a non-fail
outcome the Scheduler runs against the already-updated SRS store (the
record is persisted at line 264, before `_plan_next_activity` reloads the
store at line 410). -/
def submitCore (options : List CurriculumItem) (srs : String → Option SRSItem)
    (now : ℚ) (s : SessionState) (p : Pending) (utterance : String) :
    Option (Feedback × SessionState × (String × SRSItem)) :=
  let evaluation := evaluate_utterance utterance p.target
  let outcome := score_to_outcome evaluation.total
  let xpSt := applyXp s.xp s.stickers (xp_for_outcome outcome)
  let award : Option Award :=
    if xp_for_outcome outcome ≠ 0 then
      some { xp := xp_for_outcome outcome, stickers := xpSt.2 }
    else none
  let item := ((srs p.item_id).getD SRSItem.default).schedule outcome now
  let srs' : String → Option SRSItem :=
    fun id => if id = p.item_id then some item else srs id
  let s1 := { s with xp := xpSt.1, stickers := xpSt.2,
                     attempts := s.attempts ++
                       [{ item_id := p.item_id, outcome := outcome,
                          score := evaluation.total, timestamp := now }] }
  if outcome = "fail" then
    some ({ mastery_delta := mastery_delta_for_outcome outcome,
            award := award, next_activity := none,
            review_card := some (makeReviewCard p) },
          { s1 with pending := some { p with attempts := p.attempts + 1 } },
          (p.item_id, item))
  else
    (planNextActivity options srs' now s1).map fun ns =>
      ({ mastery_delta := mastery_delta_for_outcome outcome,
         award := award, next_activity := some ns.1,
         review_card := none },
       ns.2, (p.item_id, item))

/-- `submit_utterance` (server.py lines 226-296).  If no pending activity
exists the orchestrator self-heals by planning one first (lines 233-238);
if the plan cannot produce one (empty candidate list) the source raises,
modelled as `none`. -/
def submitUtterance (options : List CurriculumItem)
    (srs : String → Option SRSItem) (now : ℚ) (s : SessionState)
    (utterance : String) :
    Option (Feedback × SessionState × (String × SRSItem)) :=
  match s.pending with
  | some p => submitCore options srs now s p utterance
  | none =>
    match planNextActivity options srs now s with
    | none => none
    | some (_, s0) =>
      match s0.pending with
      | some p => submitCore options srs now s0 p utterance
      | none => none

/-- `set_goal` (server.py lines 298-305): switches the goal, resets the
new-item cursor and the new-since-review throttle, clears the pending
activity; XP, stickers, the attempt log and the identity fields are
untouched. -/
def set_goal (s : SessionState) (goal : String) : SessionState :=
  { s with goal := goal, new_cursor := 0, new_since_review := 0,
           pending := none }

/-- Session states reachable from the public operations: a fresh session
(`start_session` for a new learner), resumption (`start_session` for an
existing learner overwrites identity/goal fields and keeps the rest),
`next_activity` / the scheduler, `submit_utterance`, and `set_goal`. -/
inductive Reachable : SessionState → Prop
  | fresh (user_id : String) (ageLo ageHi : ℤ) (goal locale : String) :
      Reachable (freshState user_id ageLo ageHi goal locale)
  | resume (s : SessionState) (user_id : String) (ageLo ageHi : ℤ)
      (goal locale : String) : Reachable s →
      Reachable { s with user_id := user_id, ageLo := ageLo, ageHi := ageHi,
                         goal := goal, locale := locale }
  | planStep (s s' : SessionState) (a : Activity)
      (options : List CurriculumItem) (srs : String → Option SRSItem)
      (now : ℚ) : Reachable s →
      planNextActivity options srs now s = some (a, s') → Reachable s'
  | submitStep (s s' : SessionState) (fb : Feedback) (pr : String × SRSItem)
      (options : List CurriculumItem) (srs : String → Option SRSItem)
      (now : ℚ) (utterance : String) : Reachable s →
      submitUtterance options srs now s utterance = some (fb, s', pr) →
      Reachable s'
  | setGoalStep (s : SessionState) (goal : String) : Reachable s →
      Reachable (set_goal s goal)

/-! ### A concrete test scenario (used by witnesses)

A two-item greetings catalog, an empty SRS store, and a session holding a
pending activity for the first item with 15 accumulated XP. -/

def itemG1 : CurriculumItem :=
  { track := "greetings", item_id := "g1", min_age := 5, max_age := 6,
    target := "hi" }

def itemG2 : CurriculumItem :=
  { track := "greetings", item_id := "g2", min_age := 5, max_age := 6,
    target := "good morning" }

def catalogW : List CurriculumItem := [itemG1, itemG2]

def srsEmpty : String → Option SRSItem := fun _ => none

def sessionW : SessionState :=
  { freshState ("kid-1") 5 6 ("greetings") ("zh-CN") with
      xp := 15,
      pending := some { item_id := "g1", target := "hi", attempts := 0 } }

/-- The result of submitting the exact target "hi" in the scenario:
outcome "pass", XP 15 → 20, one sticker awarded, next activity g2. -/
def feedbackPassW : Feedback :=
  { mastery_delta := 2, award := some { xp := 5, stickers := 1 },
    next_activity := some { target_phrase := "good morning",
                            timebox_sec := 12, item_id := "g2" },
    review_card := none }

def sessionPassW : SessionState :=
  { sessionW with
      xp := 20, stickers := 1,
      pending := some { item_id := "g2", target := "good morning",
                        attempts := 0 },
      new_cursor := 1, new_since_review := 1,
      attempts := [{ item_id := "g1", outcome := "pass", score := 6,
                     timestamp := 0 }] }

def prPassW : String × SRSItem :=
  ("g1", { ease := mkRat 27 20, interval_days := mkRat 27 20,
           due_at := mkRat 27 20, streak := 1 })

/-- The result of submitting the empty string in the scenario: outcome
"fail", state kept except the attempt counter and log. -/
def feedbackFailW : Feedback :=
  { mastery_delta := -1, award := none, next_activity := none,
    review_card := some { target_phrase := "hi", timebox_sec := 15,
                          item_id := "g1" } }

def sessionFailW : SessionState :=
  { sessionW with
      pending := some { item_id := "g1", target := "hi", attempts := 1 },
      attempts := [{ item_id := "g1", outcome := "fail", score := 0,
                     timestamp := 0 }] }

def prFailW : String × SRSItem :=
  ("g1", { ease := easeFloor, interval_days := 0, due_at := 0, streak := 0 })

/-- An SRS store in which both scenario items are due, g2 earlier. -/
def srsDueW : String → Option SRSItem := fun id =>
  if id = "g1" then
    some { ease := easeFloor, interval_days := 0, due_at := 5, streak := 0 }
  else if id = "g2" then
    some { ease := easeFloor, interval_days := 0, due_at := 3, streak := 0 }
  else none

/-- The scenario session with the new-since-review throttle at 2. -/
def sessionThrottledW : SessionState := { sessionW with new_since_review := 2 }

/-! ### Values of the numeric constants -/

theorem easeFloor_val : easeFloor = 13 / 10 := by
  rw [easeFloor, Rat.mkRat_eq_divInt, Rat.divInt_eq_div]; norm_num

theorem shrinkFactor_val : shrinkFactor = 4 / 5 := by
  rw [shrinkFactor, Rat.mkRat_eq_divInt, Rat.divInt_eq_div]; norm_num

theorem easeStep_val : easeStep = 1 / 20 := by
  rw [easeStep, Rat.mkRat_eq_divInt, Rat.divInt_eq_div]; norm_num

theorem easeCap_val : easeCap = 5 / 2 := by
  rw [easeCap, Rat.mkRat_eq_divInt, Rat.divInt_eq_div]; norm_num

/-! ### Claim C1 (Mastery Updater on an unknown outcome) -/

/-- Claim C1, as stated, is false: `schedule` called with an outcome outside
the set does NOT fail with an InvalidOutcome error — at the concrete record
below and outcome "unknown" it returns normally and leaves the record
unchanged, which is exactly what the claim rules out. -/
theorem C1_counterexample :
    SRSItem.schedule { ease := easeFloor, interval_days := 2, due_at := 6,
                       streak := 3 } ("unknown") 9 =
      { ease := easeFloor, interval_days := 2, due_at := 6, streak := 3 } := by
  rfl

/-- Claim C1 (amended): for every outcome outside {"fail", "partial",
"pass"}, `schedule` returns normally and leaves the record unchanged; no
error path exists in the function. -/
theorem C1_amended (r : SRSItem) (o : String) (now : ℚ)
    (h1 : o ≠ "fail") (h2 : o ≠ "partial") (h3 : o ≠ "pass") :
    r.schedule o now = r := by
  rw [SRSItem.schedule, if_neg h1, if_neg h2, if_neg h3]

/-- Witness for the amended claim C1 at a concrete record and outcome. -/
theorem C1_amended_witness :
    ("unknown" ≠ "fail" ∧ "unknown" ≠ "partial" ∧ "unknown" ≠ "pass") ∧
      SRSItem.default.schedule ("unknown") 5 = SRSItem.default :=
  ⟨by decide,
   C1_amended SRSItem.default ("unknown") 5 (by decide) (by decide) (by decide)⟩

/-! ### Claim C7 (schedule preserves the SchedulingRecord invariants) -/

theorem schedule_fail_eq (r : SRSItem) (now : ℚ) :
    r.schedule ("fail") now =
      { ease := easeFloor, interval_days := 0, due_at := now, streak := 0 } := by
  simp [SRSItem.schedule]

theorem schedule_partial_eq (r : SRSItem) (now : ℚ) :
    r.schedule ("partial") now =
      { r with
          interval_days := max 1 (qmul (max r.interval_days 1) shrinkFactor),
          due_at := qadd now (max 1 (qmul (max r.interval_days 1) shrinkFactor)) } := by
  simp [SRSItem.schedule]

theorem schedule_pass_eq (r : SRSItem) (now : ℚ) :
    r.schedule ("pass") now =
      { ease := min (qadd r.ease easeStep) easeCap,
        interval_days :=
          qmul (max 1 (if r.interval_days ≠ 0 then r.interval_days else 1))
            (min (qadd r.ease easeStep) easeCap),
        due_at :=
          qadd now
            (qmul (max 1 (if r.interval_days ≠ 0 then r.interval_days else 1))
              (min (qadd r.ease easeStep) easeCap)),
        streak := r.streak + 1 } := by
  simp [SRSItem.schedule]

/-- Claim C7: for every record with ease in the band [1.3, 2.5],
a nonnegative interval and a nonnegative streak, and every outcome among
fail/partial/pass, the scheduled record again satisfies those invariants;
moreover fail resets ease to 1.3, interval to 0, due to now and streak
to 0; partial keeps ease and streak and yields an interval of at least 1;
pass keeps ease at most 2.5. -/
theorem C7_schedule_invariants (r : SRSItem) (o : String) (now : ℚ)
    (ho : o = "fail" ∨ o = "partial" ∨ o = "pass")
    (he1 : easeFloor ≤ r.ease) (he2 : r.ease ≤ easeCap)
    (hi : 0 ≤ r.interval_days) (hs : 0 ≤ r.streak) :
    (easeFloor ≤ (r.schedule o now).ease ∧ (r.schedule o now).ease ≤ easeCap) ∧
    0 ≤ (r.schedule o now).interval_days ∧ 0 ≤ (r.schedule o now).streak ∧
    (o = "fail" → r.schedule o now =
      { ease := easeFloor, interval_days := 0, due_at := now, streak := 0 }) ∧
    (o = "partial" → (r.schedule o now).ease = r.ease ∧
      (r.schedule o now).streak = r.streak ∧
      1 ≤ (r.schedule o now).interval_days) ∧
    (o = "pass" → (r.schedule o now).ease ≤ easeCap) := by
  have hfloor : (0 : ℚ) < easeFloor := by rw [easeFloor_val]; norm_num
  have hcap : easeFloor ≤ easeCap := by rw [easeFloor_val, easeCap_val]; norm_num
  rcases ho with rfl | rfl | rfl
  · rw [schedule_fail_eq]
    exact ⟨⟨le_refl _, hcap⟩, le_refl _, le_refl _, fun _ => rfl, by simp,
      by simp⟩
  · rw [schedule_partial_eq]
    have hone : (1 : ℚ) ≤ max 1 (qmul (max r.interval_days 1) shrinkFactor) :=
      le_max_left _ _
    exact ⟨⟨he1, he2⟩, le_trans zero_le_one hone, hs, by simp,
      fun _ => ⟨rfl, rfl, hone⟩, by simp⟩
  · rw [schedule_pass_eq]
    have hstep : (0 : ℚ) ≤ easeStep := by rw [easeStep_val]; norm_num
    have hle : easeFloor ≤ qadd r.ease easeStep := by
      rw [qadd_eq]
      calc easeFloor ≤ r.ease := he1
        _ ≤ r.ease + easeStep := le_add_of_nonneg_right hstep
    have hmin : easeFloor ≤ min (qadd r.ease easeStep) easeCap := le_min hle hcap
    have hmax : (0 : ℚ) ≤ max 1 (if r.interval_days ≠ 0 then r.interval_days else 1) :=
      le_trans zero_le_one (le_max_left _ _)
    have hint : (0 : ℚ) ≤
        qmul (max 1 (if r.interval_days ≠ 0 then r.interval_days else 1))
          (min (qadd r.ease easeStep) easeCap) := by
      rw [qmul_eq]
      exact mul_nonneg hmax (le_trans hfloor.le hmin)
    exact ⟨⟨hmin, min_le_right _ _⟩, hint, by change 0 ≤ r.streak + 1; omega,
      by simp, by simp, fun _ => min_le_right _ _⟩

/-- Witness for claim C7 at a concrete record and the "pass" outcome. -/
theorem C7_witness :
    (("pass" = "fail" ∨ "pass" = "partial" ∨ "pass" = "pass") ∧
      easeFloor ≤ SRSItem.default.ease ∧ SRSItem.default.ease ≤ easeCap ∧
      (0 : ℚ) ≤ SRSItem.default.interval_days ∧
      (0 : ℤ) ≤ SRSItem.default.streak) ∧
    ((easeFloor ≤ (SRSItem.default.schedule ("pass") 0).ease ∧
      (SRSItem.default.schedule ("pass") 0).ease ≤ easeCap) ∧
     0 ≤ (SRSItem.default.schedule ("pass") 0).interval_days ∧
     0 ≤ (SRSItem.default.schedule ("pass") 0).streak ∧
     ("pass" = "fail" → SRSItem.default.schedule ("pass") 0 =
       { ease := easeFloor, interval_days := 0, due_at := 0, streak := 0 }) ∧
     ("pass" = "partial" →
       (SRSItem.default.schedule ("pass") 0).ease = SRSItem.default.ease ∧
       (SRSItem.default.schedule ("pass") 0).streak = SRSItem.default.streak ∧
       1 ≤ (SRSItem.default.schedule ("pass") 0).interval_days) ∧
     ("pass" = "pass" → (SRSItem.default.schedule ("pass") 0).ease ≤ easeCap)) :=
  ⟨⟨by decide, by decide, by decide, by decide, by decide⟩,
   C7_schedule_invariants SRSItem.default ("pass") 0 (by decide) (by decide)
     (by decide) (by decide) (by decide)⟩

/-! ### Claim C3 (the Evaluator's meaning score) -/

theorem compare_tokens_fst (p t : List String) (h : p ≠ []) :
    (compare_tokens p t).1 =
      if max 1 (t.length / 2) ≤ overlapCount p t then 2
      else if overlapCount p t ≠ 0 then 1 else 0 := by
  rw [compare_tokens, if_neg h]

/-- Claim C3: with at least one predicted token, the meaning score is 2
exactly when the number of distinct predicted tokens occurring in the
target reaches the threshold `max 1 (target-length / 2)` (integer division
with a minimum threshold of 1), 1 exactly when there is some overlap below
that threshold, and 0 exactly when no target token appears among the
predicted tokens. -/
theorem C3_meaning_trichotomy (utterance target_phrase : String)
    (h : tokenize utterance ≠ []) :
    ((compare_tokens (tokenize utterance) (tokenize target_phrase)).1 = 2 ↔
      max 1 ((tokenize target_phrase).length / 2) ≤
        overlapCount (tokenize utterance) (tokenize target_phrase)) ∧
    ((compare_tokens (tokenize utterance) (tokenize target_phrase)).1 = 1 ↔
      (overlapCount (tokenize utterance) (tokenize target_phrase) ≠ 0 ∧
        overlapCount (tokenize utterance) (tokenize target_phrase) <
          max 1 ((tokenize target_phrase).length / 2))) ∧
    ((compare_tokens (tokenize utterance) (tokenize target_phrase)).1 = 0 ↔
      overlapCount (tokenize utterance) (tokenize target_phrase) = 0) := by
  have hthr1 : 1 ≤ max 1 ((tokenize target_phrase).length / 2) :=
    le_max_left _ _
  rw [compare_tokens_fst _ _ h]
  generalize overlapCount (tokenize utterance) (tokenize target_phrase) = ov
  revert hthr1
  generalize max 1 ((tokenize target_phrase).length / 2) = thr
  intro hthr1
  split_ifs with hA hB <;> simp <;> omega

/-- Witness for claim C3 on a concrete utterance and target. -/
theorem C3_witness :
    tokenize ("yes hello") ≠ [] ∧
    (((compare_tokens (tokenize ("yes hello")) (tokenize ("hello there"))).1 = 2 ↔
        max 1 ((tokenize ("hello there")).length / 2) ≤
          overlapCount (tokenize ("yes hello")) (tokenize ("hello there"))) ∧
     ((compare_tokens (tokenize ("yes hello")) (tokenize ("hello there"))).1 = 1 ↔
        (overlapCount (tokenize ("yes hello")) (tokenize ("hello there")) ≠ 0 ∧
          overlapCount (tokenize ("yes hello")) (tokenize ("hello there")) <
            max 1 ((tokenize ("hello there")).length / 2))) ∧
     ((compare_tokens (tokenize ("yes hello")) (tokenize ("hello there"))).1 = 0 ↔
        overlapCount (tokenize ("yes hello")) (tokenize ("hello there")) = 0)) :=
  ⟨by decide, C3_meaning_trichotomy ("yes hello") ("hello there") (by decide)⟩

/-! ### Claim C10 (non-empty utterance without token characters) -/

theorem tokenizeAux_nil (cs : List Char)
    (h : ∀ c ∈ cs, isTokenChar c = false) : tokenizeAux cs [] = [] := by
  induction cs with
  | nil => rfl
  | cons c cs ih =>
    rw [tokenizeAux, h c (by simp)]
    simpa using ih fun x hx => h x (by simp [hx])

theorem tokenize_eq_nil (u : String)
    (h : ∀ c ∈ u.data, isTokenChar c = false) : tokenize u = [] := by
  rw [tokenize, tokenizeAux_nil u.data h]; rfl

/-- Claim C10: a non-empty utterance with no ASCII letters and no
apostrophes, whose stripped form does not end with "...", scores
meaning 0, form 0, pronunciation 0, fluency 1 — total 1, outcome "fail" —
while the empty string scores total 0 (also "fail"). -/
theorem C10_nonletter_utterance (u t : String) (h1 : u ≠ emptyString)
    (h2 : ∀ c ∈ u.data, isTokenChar c = false)
    (h3 : endsWithDots (pyStrip u) = false) :
    evaluate_utterance u t =
      { meaning := 0, form := 0, pronunciation := 0, fluency := 1 } ∧
    (evaluate_utterance u t).total = 1 ∧
    score_to_outcome (evaluate_utterance u t).total = "fail" ∧
    (evaluate_utterance emptyString t).total = 0 ∧
    score_to_outcome (evaluate_utterance emptyString t).total = "fail" := by
  have ht := tokenize_eq_nil u h2
  have hmain : evaluate_utterance u t =
      { meaning := 0, form := 0, pronunciation := 0, fluency := 1 } := by
    simp [evaluate_utterance, ht, compare_tokens, h1, h3]
  have hempty : (evaluate_utterance emptyString t).total = 0 := rfl
  refine ⟨hmain, ?_, ?_, hempty, ?_⟩
  · rw [hmain]; rfl
  · rw [hmain]; rfl
  · rw [hempty]; rfl

/-- Witness for claim C10 on the concrete utterance "123 !?". -/
theorem C10_witness :
    (("123 !?" : String) ≠ emptyString ∧
      (∀ c ∈ ("123 !?" : String).data, isTokenChar c = false) ∧
      endsWithDots (pyStrip ("123 !?")) = false) ∧
    (evaluate_utterance ("123 !?") ("hi") =
      { meaning := 0, form := 0, pronunciation := 0, fluency := 1 } ∧
    (evaluate_utterance ("123 !?") ("hi")).total = 1 ∧
    score_to_outcome (evaluate_utterance ("123 !?") ("hi")).total = "fail" ∧
    (evaluate_utterance emptyString ("hi")).total = 0 ∧
    score_to_outcome (evaluate_utterance emptyString ("hi")).total = "fail") :=
  ⟨⟨by decide, by decide, by decide⟩,
   C10_nonletter_utterance ("123 !?") ("hi") (by decide) (by decide) (by decide)⟩

/-! ### Claim C8 (set_goal resets selection state and nothing else) -/

/-- Claim C8: `set_goal` sets the new-item cursor and the new-since-review
counter to 0 and clears the pending activity, while leaving XP, stickers,
the attempt log, the learner id, the age band and the locale unchanged. -/
theorem C8_set_goal_frame (s : SessionState) (g : String) :
    (set_goal s g).goal = g ∧ (set_goal s g).new_cursor = 0 ∧
    (set_goal s g).new_since_review = 0 ∧ (set_goal s g).pending = none ∧
    (set_goal s g).xp = s.xp ∧ (set_goal s g).stickers = s.stickers ∧
    (set_goal s g).attempts = s.attempts ∧
    (set_goal s g).user_id = s.user_id ∧ (set_goal s g).ageLo = s.ageLo ∧
    (set_goal s g).ageHi = s.ageHi ∧ (set_goal s g).locale = s.locale :=
  ⟨rfl, rfl, rfl, rfl, rfl, rfl, rfl, rfl, rfl, rfl, rfl⟩

/-! ### Scheduler and submission frame lemmas -/

/-- `_plan_next_activity` only touches the pending activity and the
selection counters: XP, stickers, attempt log, goal and identity fields
pass through unchanged. -/
theorem plan_preserves (O : List CurriculumItem) (R : String → Option SRSItem)
    (now : ℚ) (s : SessionState) (a : Activity) (s' : SessionState)
    (h : planNextActivity O R now s = some (a, s')) :
    s'.xp = s.xp ∧ s'.stickers = s.stickers ∧ s'.attempts = s.attempts ∧
    s'.goal = s.goal ∧ s'.user_id = s.user_id ∧ s'.ageLo = s.ageLo ∧
    s'.ageHi = s.ageHi ∧ s'.locale = s.locale := by
  rw [planNextActivity] at h
  split_ifs at h
  all_goals first
    | exact Option.noConfusion h
    | · simp only [finishPlan, Option.some.injEq, Prod.mk.injEq] at h
        rcases h with ⟨-, rfl⟩
        exact ⟨rfl, rfl, rfl, rfl, rfl, rfl, rfl, rfl⟩

theorem xp_for_outcome_le (o : String) : xp_for_outcome o ≤ 5 := by
  rw [xp_for_outcome]; split_ifs <;> omega

/-- XP/sticker effect of `submitCore`: XP grows by the outcome's delta
(at most 5) and the sticker count follows the `applyXp` rule. -/
theorem submitCore_state (O : List CurriculumItem)
    (R : String → Option SRSItem) (now : ℚ) (s : SessionState) (p : Pending)
    (u : String) (fb : Feedback) (s' : SessionState) (pr : String × SRSItem)
    (h : submitCore O R now s p u = some (fb, s', pr)) :
    ∃ d : ℕ, d ≤ 5 ∧ s'.xp = s.xp + d ∧
      s'.stickers = (if d ≠ 0 ∧ s.stickers < (s.xp + d) / 20
        then s.stickers + 1 else s.stickers) := by
  refine ⟨xp_for_outcome (score_to_outcome (evaluate_utterance u p.target).total),
    xp_for_outcome_le _, ?_⟩
  by_cases hfail : score_to_outcome (evaluate_utterance u p.target).total = "fail"
  · simp only [submitCore, if_pos hfail] at h
    simp only [Option.some.injEq, Prod.mk.injEq] at h
    rcases h with ⟨-, rfl, -⟩
    exact ⟨rfl, rfl⟩
  · simp only [submitCore, if_neg hfail] at h
    rw [Option.map_eq_some'] at h
    rcases h with ⟨ns, hplan, hmk⟩
    obtain ⟨a2, s2⟩ := ns
    simp only [Prod.mk.injEq] at hmk
    rcases hmk with ⟨-, rfl, -⟩
    obtain ⟨hxp, hst, -⟩ := plan_preserves _ _ _ _ _ _ hplan
    exact ⟨hxp, hst⟩

/-- XP/sticker effect of `submit_utterance`, including the self-heal path. -/
theorem submit_state (O : List CurriculumItem) (R : String → Option SRSItem)
    (now : ℚ) (s : SessionState) (u : String) (fb : Feedback)
    (s' : SessionState) (pr : String × SRSItem)
    (h : submitUtterance O R now s u = some (fb, s', pr)) :
    ∃ d : ℕ, d ≤ 5 ∧ s'.xp = s.xp + d ∧
      s'.stickers = (if d ≠ 0 ∧ s.stickers < (s.xp + d) / 20
        then s.stickers + 1 else s.stickers) := by
  rw [submitUtterance] at h
  cases hsp : s.pending with
  | some p =>
    rw [hsp] at h
    exact submitCore_state _ _ _ _ _ _ _ _ _ h
  | none =>
    rw [hsp] at h
    cases hplan : planNextActivity O R now s with
    | none => rw [hplan] at h; exact Option.noConfusion h
    | some ans =>
      obtain ⟨a0, s0⟩ := ans
      simp only [hplan] at h
      cases hsp0 : s0.pending with
      | none => rw [hsp0] at h; exact Option.noConfusion h
      | some p =>
        rw [hsp0] at h
        obtain ⟨d, hd5, hxp, hst⟩ := submitCore_state _ _ _ _ _ _ _ _ _ h
        obtain ⟨hx0, hs0, -⟩ := plan_preserves _ _ _ _ _ _ hplan
        exact ⟨d, hd5, by rw [hxp, hx0], by rw [hst, hx0, hs0]⟩

/-! ### Claim C9 (the badge count always equals XP / 20) -/

/-- Claim C9: in every session state reachable from a fresh session by the
public operations, the sticker count equals XP integer-divided by 20 —
which is what makes the code's badge test (`new XP / 20 > stickers`)
equivalent to comparing the new against the old XP divided by 20. -/
theorem C9_stickers_eq_xp_div20 (s : SessionState) (h : Reachable s) :
    s.stickers = s.xp / 20 := by
  induction h with
  | fresh u lo hi g l => simp [freshState]
  | resume s u lo hi g l _ ih => exact ih
  | planStep s s' a O R now _ hplan ih =>
    obtain ⟨hxp, hst, -⟩ := plan_preserves _ _ _ _ _ _ hplan
    rw [hxp, hst, ih]
  | submitStep s s' fb pr O R now u _ hsub ih =>
    obtain ⟨d, hd5, hxp, hst⟩ := submit_state _ _ _ _ _ _ _ _ hsub
    rw [hxp, hst, ih]
    split_ifs with hc <;> omega
  | setGoalStep s g _ ih => exact ih

/-- Witness for claim C9 at a concrete reachable state. -/
theorem C9_witness :
    (freshState ("kid-1") 5 6 ("greetings") ("zh-CN")).stickers =
      (freshState ("kid-1") 5 6 ("greetings") ("zh-CN")).xp / 20 :=
  C9_stickers_eq_xp_div20 _
    (Reachable.fresh ("kid-1") 5 6 ("greetings") ("zh-CN"))

/-! ### Claim C2 (badge award crosses a multiple of 20) -/

/-- Claim C2: on a session satisfying the sticker invariant of C9, a
submission never adds more than one sticker, and when it adds XP the
sticker count grows by exactly one if and only if the new XP total crosses
a multiple of 20 that the old total had not reached. -/
theorem C2_badge_crossing (O : List CurriculumItem)
    (R : String → Option SRSItem) (now : ℚ) (s : SessionState) (u : String)
    (fb : Feedback) (s' : SessionState) (pr : String × SRSItem)
    (hinv : s.stickers = s.xp / 20)
    (h : submitUtterance O R now s u = some (fb, s', pr)) :
    s'.stickers ≤ s.stickers + 1 ∧
    (s.xp < s'.xp → (s'.stickers = s.stickers + 1 ↔ s.xp / 20 < s'.xp / 20)) := by
  obtain ⟨d, hd5, hxp, hst⟩ := submit_state _ _ _ _ _ _ _ _ h
  rw [hxp, hst, hinv]
  split_ifs with hc <;> omega

/-- Witness for claim C2: a submission taking XP from 15 to 20 grants
exactly one sticker. -/
theorem C2_witness :
    (sessionW.stickers = sessionW.xp / 20 ∧
      submitUtterance catalogW srsEmpty 0 sessionW ("hi") =
        some (feedbackPassW, sessionPassW, prPassW)) ∧
    (sessionPassW.stickers ≤ sessionW.stickers + 1 ∧
      (sessionW.xp < sessionPassW.xp →
        (sessionPassW.stickers = sessionW.stickers + 1 ↔
          sessionW.xp / 20 < sessionPassW.xp / 20))) :=
  ⟨⟨by decide, by decide⟩,
   C2_badge_crossing catalogW srsEmpty 0 sessionW ("hi") feedbackPassW
     sessionPassW prPassW (by decide) (by decide)⟩

/-! ### Claim C5 (fail path: review card, no scheduler advance) -/

theorem xp_for_outcome_fail : xp_for_outcome ("fail") = 0 := rfl

theorem mastery_delta_for_outcome_fail :
    mastery_delta_for_outcome ("fail") = -1 := rfl

theorem applyXp_zero (x y : ℕ) : applyXp x y 0 = (x, y) := by
  simp [applyXp]

/-- Claim C5: when the evaluated outcome is "fail", the returned feedback
has mastery delta -1 and a review card reusing the pending target, no next
activity and no award; the pending activity is retained with only its
attempt counter incremented; XP, stickers, counters, goal and identity
fields are unchanged; the only other state change is the appended attempt
log entry; the persisted SRS record is the fail-scheduled one. -/
theorem C5_fail_path (O : List CurriculumItem) (R : String → Option SRSItem)
    (now : ℚ) (s : SessionState) (u : String) (p : Pending) (fb : Feedback)
    (s' : SessionState) (pr : String × SRSItem)
    (hp : s.pending = some p)
    (hfail : score_to_outcome (evaluate_utterance u p.target).total = "fail")
    (h : submitUtterance O R now s u = some (fb, s', pr)) :
    fb.mastery_delta = -1 ∧
    fb.review_card = some (makeReviewCard p) ∧
    (makeReviewCard p).target_phrase = p.target ∧
    fb.next_activity = none ∧ fb.award = none ∧
    s'.pending = some { p with attempts := p.attempts + 1 } ∧
    s'.xp = s.xp ∧ s'.stickers = s.stickers ∧
    s'.new_cursor = s.new_cursor ∧
    s'.new_since_review = s.new_since_review ∧
    s'.goal = s.goal ∧ s'.user_id = s.user_id ∧ s'.locale = s.locale ∧
    s'.ageLo = s.ageLo ∧ s'.ageHi = s.ageHi ∧
    s'.attempts = s.attempts ++
      [{ item_id := p.item_id, outcome := "fail",
         score := (evaluate_utterance u p.target).total, timestamp := now }] ∧
    pr = (p.item_id,
      ((R p.item_id).getD SRSItem.default).schedule ("fail") now) := by
  rw [submitUtterance, hp] at h
  simp only [submitCore, if_pos hfail, hfail, xp_for_outcome_fail,
    mastery_delta_for_outcome_fail, applyXp_zero] at h
  simp only [ne_eq, not_true_eq_false, if_neg, Option.some.injEq,
    Prod.mk.injEq, reduceIte] at h
  rcases h with ⟨rfl, rfl, rfl⟩
  exact ⟨rfl, rfl, rfl, rfl, rfl, rfl, rfl, rfl, rfl, rfl, rfl, rfl, rfl,
    rfl, rfl, rfl, rfl⟩

/-- Witness for claim C5: submitting the empty string in the concrete
scenario fails and keeps the pending activity. -/
theorem C5_witness :
    (sessionW.pending =
        some { item_id := "g1", target := "hi", attempts := 0 } ∧
      score_to_outcome
        (evaluate_utterance emptyString
          (Pending.mk ("g1") ("hi") 0).target).total = "fail" ∧
      submitUtterance catalogW srsEmpty 0 sessionW emptyString =
        some (feedbackFailW, sessionFailW, prFailW)) ∧
    (feedbackFailW.mastery_delta = -1 ∧
     feedbackFailW.review_card =
       some (makeReviewCard (Pending.mk ("g1") ("hi") 0)) ∧
     (makeReviewCard (Pending.mk ("g1") ("hi") 0)).target_phrase =
       (Pending.mk ("g1") ("hi") 0).target ∧
     feedbackFailW.next_activity = none ∧ feedbackFailW.award = none ∧
     sessionFailW.pending =
       some { Pending.mk ("g1") ("hi") 0 with
                attempts := (Pending.mk ("g1") ("hi") 0).attempts + 1 } ∧
     sessionFailW.xp = sessionW.xp ∧
     sessionFailW.stickers = sessionW.stickers ∧
     sessionFailW.new_cursor = sessionW.new_cursor ∧
     sessionFailW.new_since_review = sessionW.new_since_review ∧
     sessionFailW.goal = sessionW.goal ∧
     sessionFailW.user_id = sessionW.user_id ∧
     sessionFailW.locale = sessionW.locale ∧
     sessionFailW.ageLo = sessionW.ageLo ∧
     sessionFailW.ageHi = sessionW.ageHi ∧
     sessionFailW.attempts = sessionW.attempts ++
       [{ item_id := (Pending.mk ("g1") ("hi") 0).item_id, outcome := "fail",
          score := (evaluate_utterance emptyString
            (Pending.mk ("g1") ("hi") 0).target).total, timestamp := 0 }] ∧
     prFailW = ((Pending.mk ("g1") ("hi") 0).item_id,
       ((srsEmpty (Pending.mk ("g1") ("hi") 0).item_id).getD
         SRSItem.default).schedule ("fail") 0)) :=
  ⟨⟨by decide, by decide, by decide⟩,
   C5_fail_path catalogW srsEmpty 0 sessionW emptyString
     (Pending.mk ("g1") ("hi") 0) feedbackFailW sessionFailW prFailW
     (by decide) (by decide) (by decide)⟩

/-! ### Claim C6 (exact echo of the target passes) -/

theorem overlapCount_self (ts : List String) (h : ts ≠ []) :
    overlapCount ts ts ≠ 0 := by
  rw [overlapCount]
  have hf : ts.filter (fun t => decide (t ∈ ts)) = ts :=
    List.filter_eq_self.mpr fun a ha => by simpa using ha
  rw [hf]
  intro hlen
  rw [List.length_eq_zero, List.dedup_eq_nil] at hlen
  exact h hlen

theorem tokenize_empty : tokenize emptyString = [] := rfl

/-- Echoing a phrase back exactly: form is 2, and — provided the phrase has
at least one token and does not end in "..." — the total reaches 5, hence
outcome "pass". -/
theorem evaluate_self (t : String) (h1 : tokenize t ≠ [])
    (h2 : endsWithDots (pyStrip t) = false) :
    (evaluate_utterance t t).form = 2 ∧ 5 ≤ (evaluate_utterance t t).total ∧
    score_to_outcome (evaluate_utterance t t).total = "pass" := by
  have hne : t ≠ emptyString := fun he => h1 (by rw [he, tokenize_empty])
  have hov := overlapCount_self (tokenize t) h1
  have hev : evaluate_utterance t t =
      { meaning := (compare_tokens (tokenize t) (tokenize t)).1,
        form := (compare_tokens (tokenize t) (tokenize t)).2,
        pronunciation := 1, fluency := 1 } := by
    simp only [evaluate_utterance]
    rw [if_pos h1, if_pos ⟨hne, h2⟩]
  have hform : (compare_tokens (tokenize t) (tokenize t)).2 = 2 := by
    rw [compare_tokens, if_neg h1]
    simp
  have hmean : 1 ≤ (compare_tokens (tokenize t) (tokenize t)).1 := by
    rw [compare_tokens_fst _ _ h1]
    split_ifs <;> omega
  have htot : 5 ≤ (evaluate_utterance t t).total := by
    rw [hev, EvaluationResult.total]
    simp only
    omega
  refine ⟨by rw [hev]; exact hform, htot, ?_⟩
  rw [score_to_outcome, if_neg (by omega), if_neg (by omega)]

/-- Claim C6: submitting an utterance exactly equal to the pending target
(any target with at least one token and no trailing "...", which covers
every catalog phrase) yields outcome "pass" with form score 2, XP
increased by 5, mastery delta +2, a next activity produced by the
Scheduler, and no review card. -/
theorem C6_exact_match_pass (O : List CurriculumItem)
    (R : String → Option SRSItem) (now : ℚ) (s : SessionState) (p : Pending)
    (fb : Feedback) (s' : SessionState) (pr : String × SRSItem)
    (hp : s.pending = some p)
    (h1 : tokenize p.target ≠ [])
    (h2 : endsWithDots (pyStrip p.target) = false)
    (h : submitUtterance O R now s p.target = some (fb, s', pr)) :
    (evaluate_utterance p.target p.target).form = 2 ∧
    score_to_outcome (evaluate_utterance p.target p.target).total = "pass" ∧
    fb.mastery_delta = 2 ∧ s'.xp = s.xp + 5 ∧
    fb.next_activity.isSome = true ∧ fb.review_card = none := by
  obtain ⟨hform, htot, hout⟩ := evaluate_self p.target h1 h2
  rw [submitUtterance, hp] at h
  simp only [submitCore, hout] at h
  rw [if_neg (by decide : ¬(("pass" : String) = "fail")),
    Option.map_eq_some'] at h
  rcases h with ⟨ns, hplan, hmk⟩
  obtain ⟨a2, s2⟩ := ns
  simp only [Prod.mk.injEq] at hmk
  rcases hmk with ⟨rfl, rfl, rfl⟩
  obtain ⟨hxp, -⟩ := plan_preserves _ _ _ _ _ _ hplan
  refine ⟨hform, hout, rfl, ?_, rfl, rfl⟩
  rw [hxp]
  simp [applyXp, xp_for_outcome]

/-- Witness for claim C6: echoing the pending target "hi" in the concrete
scenario passes and advances the scheduler. -/
theorem C6_witness :
    (sessionW.pending =
        some { item_id := "g1", target := "hi", attempts := 0 } ∧
      tokenize (Pending.mk ("g1") ("hi") 0).target ≠ [] ∧
      endsWithDots (pyStrip (Pending.mk ("g1") ("hi") 0).target) = false ∧
      submitUtterance catalogW srsEmpty 0 sessionW
          (Pending.mk ("g1") ("hi") 0).target =
        some (feedbackPassW, sessionPassW, prPassW)) ∧
    ((evaluate_utterance (Pending.mk ("g1") ("hi") 0).target
        (Pending.mk ("g1") ("hi") 0).target).form = 2 ∧
     score_to_outcome (evaluate_utterance (Pending.mk ("g1") ("hi") 0).target
        (Pending.mk ("g1") ("hi") 0).target).total = "pass" ∧
     feedbackPassW.mastery_delta = 2 ∧
     sessionPassW.xp = sessionW.xp + 5 ∧
     feedbackPassW.next_activity.isSome = true ∧
     feedbackPassW.review_card = none) :=
  ⟨⟨by decide, by decide, by decide, by decide⟩,
   C6_exact_match_pass catalogW srsEmpty 0 sessionW
     (Pending.mk ("g1") ("hi") 0) feedbackPassW sessionPassW prPassW
     (by decide) (by decide) (by decide) (by decide)⟩

/-! ### Claim C4 (due-but-throttled override)

The stable sort of the due list puts in front the first catalog item
attaining the earliest due date; `firstMinBy` characterises that head. -/

theorem orderedInsertDue_ne_nil (R : String → Option SRSItem)
    (x : CurriculumItem) (l : List CurriculumItem) :
    orderedInsertDue R x l ≠ [] := by
  cases l with
  | nil => simp [orderedInsertDue]
  | cons y ys => rw [orderedInsertDue]; split_ifs <;> simp

theorem sortByDue_eq_nil (R : String → Option SRSItem)
    (l : List CurriculumItem) : sortByDue R l = [] ↔ l = [] := by
  cases l with
  | nil => simp [sortByDue]
  | cons x xs =>
    rw [sortByDue]
    simp [orderedInsertDue_ne_nil]

theorem head?_orderedInsertDue_cons (R : String → Option SRSItem)
    (x y : CurriculumItem) (ys : List CurriculumItem) :
    (orderedInsertDue R x (y :: ys)).head? =
      some (if dueKey R x ≤ dueKey R y then x else y) := by
  rw [orderedInsertDue]; split_ifs <;> rfl

theorem head?_sortByDue (R : String → Option SRSItem)
    (l : List CurriculumItem) :
    (sortByDue R l).head? = firstMinBy (dueKey R) l := by
  induction l with
  | nil => rfl
  | cons x xs ih =>
    cases hxs : sortByDue R xs with
    | nil =>
      have hn : xs = [] := (sortByDue_eq_nil R xs).mp hxs
      subst hn
      rfl
    | cons y ys =>
      have hfm : firstMinBy (dueKey R) xs = some y := by
        rw [← ih, hxs]; rfl
      rw [sortByDue, hxs, head?_orderedInsertDue_cons, firstMinBy, hfm]

theorem firstMinBy_of_ne_nil (key : CurriculumItem → ℚ)
    (l : List CurriculumItem) (h : l ≠ []) :
    ∃ m, firstMinBy key l = some m := by
  cases l with
  | nil => exact absurd rfl h
  | cons x xs =>
    cases hfm : firstMinBy key xs with
    | none => exact ⟨x, by rw [firstMinBy, hfm]⟩
    | some y =>
      exact ⟨if key x ≤ key y then x else y, by rw [firstMinBy, hfm]⟩

/-- The element produced by `firstMinBy` is a member of the list, has the
minimal key, and is the first element achieving that minimum: every
element in front of it in the list has a strictly larger key. -/
theorem firstMinBy_spec (key : CurriculumItem → ℚ)
    (l : List CurriculumItem) (m : CurriculumItem)
    (h : firstMinBy key l = some m) :
    m ∈ l ∧ (∀ b ∈ l, key m ≤ key b) ∧
    ∃ l₁ l₂, l = l₁ ++ m :: l₂ ∧ ∀ b ∈ l₁, key m < key b := by
  induction l generalizing m with
  | nil => exact absurd h (by rw [firstMinBy]; simp)
  | cons x xs ih =>
    cases hfm : firstMinBy key xs with
    | none =>
      simp only [firstMinBy, hfm, Option.some.injEq] at h
      subst h
      have hxs : xs = [] := by
        cases xs with
        | nil => rfl
        | cons z zs =>
          simp only [firstMinBy] at hfm
          cases hz : firstMinBy key zs <;> simp [hz] at hfm
      subst hxs
      exact ⟨List.mem_cons_self _ _, by simp, [], [], rfl, by simp⟩
    | some y =>
      simp only [firstMinBy, hfm, Option.some.injEq] at h
      obtain ⟨hy_mem, hy_min, l₁, l₂, hdec, hstrict⟩ := ih y hfm
      by_cases hle : key x ≤ key y
      · rw [if_pos hle] at h
        subst h
        refine ⟨List.mem_cons_self _ _, ?_, [], xs, rfl, by simp⟩
        intro b hb
        rcases List.mem_cons.mp hb with rfl | hb
        · exact le_refl _
        · exact le_trans hle (hy_min b hb)
      · rw [if_neg hle] at h
        subst h
        push_neg at hle
        refine ⟨List.mem_cons_of_mem _ hy_mem, ?_, x :: l₁, l₂,
          by rw [hdec]; rfl, ?_⟩
        · intro b hb
          rcases List.mem_cons.mp hb with rfl | hb
          · exact le_of_lt hle
          · exact hy_min b hb
        · intro b hb
          rcases List.mem_cons.mp hb with rfl | hb
          · exact hle
          · exact hstrict b hb

theorem isDue_isSome (R : String → Option SRSItem) (now : ℚ)
    (it : CurriculumItem) (h : isDue R now it = true) :
    (R it.item_id).isSome = true := by
  rw [isDue] at h
  cases hR : R it.item_id with
  | none => simp only [hR] at h; exact absurd h (by simp)
  | some r => simp [hR]

/-- Claim C4: whenever at least one candidate item is due and the
new-since-review counter has reached 2, the Scheduler selects a due item
(hence an item with an SRS record — never a third consecutive new item)
with the earliest due timestamp, breaking ties by catalog order (it is the
first item of the filtered catalog achieving the minimal due date), makes
it the pending activity, and resets the new-since-review counter to 0. -/
theorem C4_due_override (O : List CurriculumItem) (R : String → Option SRSItem)
    (now : ℚ) (s : SessionState)
    (hdue : ∃ it ∈ O, isDue R now it = true)
    (hthr : 2 ≤ s.new_since_review) :
    ∃ ch s',
      planNextActivity O R now s =
        some ({ target_phrase := ch.target, timebox_sec := 12,
                item_id := ch.item_id }, s') ∧
      ch ∈ O.filter (isDue R now) ∧ (R ch.item_id).isSome = true ∧
      (∀ b ∈ O.filter (isDue R now), dueKey R ch ≤ dueKey R b) ∧
      (∃ l₁ l₂, O.filter (isDue R now) = l₁ ++ ch :: l₂ ∧
        ∀ b ∈ l₁, dueKey R ch < dueKey R b) ∧
      s'.new_since_review = 0 ∧
      s'.pending = some { item_id := ch.item_id, target := ch.target,
                          attempts := 0 } ∧
      s'.new_cursor = s.new_cursor ∧ s'.xp = s.xp ∧
      s'.stickers = s.stickers := by
  obtain ⟨it0, hit0, hdue0⟩ := hdue
  have hO : O ≠ [] := by
    intro he
    subst he
    simp at hit0
  have hfilter : O.filter (isDue R now) ≠ [] := by
    intro he
    have hmem := List.mem_filter.mpr ⟨hit0, hdue0⟩
    rw [he] at hmem
    simp at hmem
  have hsort : dueItemsOf O R now ≠ [] := by
    simp only [dueItemsOf]
    intro he
    exact hfilter ((sortByDue_eq_nil R _).mp he)
  obtain ⟨ch, hch⟩ :=
    firstMinBy_of_ne_nil (dueKey R) (O.filter (isDue R now)) hfilter
  have hhead : ∀ hne : dueItemsOf O R now ≠ [],
      (dueItemsOf O R now).head hne = ch := by
    intro hne
    have h1 := List.head?_eq_head hne
    simp only [dueItemsOf, head?_sortByDue, hch] at h1
    injection h1 with h1
    exact h1.symm
  have hplan : planNextActivity O R now s =
      some ({ target_phrase := ch.target, timebox_sec := 12,
              item_id := ch.item_id },
            { s with new_since_review := 0,
                     pending := some { item_id := ch.item_id,
                                       target := ch.target,
                                       attempts := 0 } }) := by
    rw [planNextActivity, dif_neg hO,
      dif_pos (show dueItemsOf O R now ≠ [] ∧ 2 ≤ s.new_since_review from
        ⟨hsort, hthr⟩)]
    rw [finishPlan, hhead]
  obtain ⟨hmem, hmin, l₁, l₂, hdec, hstrict⟩ :=
    firstMinBy_spec (dueKey R) (O.filter (isDue R now)) ch hch
  exact ⟨ch, _, hplan, hmem,
    isDue_isSome R now ch (List.mem_filter.mp hmem).2, hmin,
    ⟨l₁, l₂, hdec, hstrict⟩, rfl, rfl, rfl, rfl, rfl⟩

/-- Witness for claim C4: with both scenario items due (g2 earlier) and
the throttle at 2, the Scheduler picks g2 and resets the throttle. -/
theorem C4_witness :
    ((∃ it ∈ catalogW, isDue srsDueW 10 it = true) ∧
      2 ≤ sessionThrottledW.new_since_review) ∧
    (∃ ch s',
      planNextActivity catalogW srsDueW 10 sessionThrottledW =
        some ({ target_phrase := ch.target, timebox_sec := 12,
                item_id := ch.item_id }, s') ∧
      ch ∈ catalogW.filter (isDue srsDueW 10) ∧
      (srsDueW ch.item_id).isSome = true ∧
      (∀ b ∈ catalogW.filter (isDue srsDueW 10),
        dueKey srsDueW ch ≤ dueKey srsDueW b) ∧
      (∃ l₁ l₂, catalogW.filter (isDue srsDueW 10) = l₁ ++ ch :: l₂ ∧
        ∀ b ∈ l₁, dueKey srsDueW ch < dueKey srsDueW b) ∧
      s'.new_since_review = 0 ∧
      s'.pending = some { item_id := ch.item_id, target := ch.target,
                          attempts := 0 } ∧
      s'.new_cursor = sessionThrottledW.new_cursor ∧
      s'.xp = sessionThrottledW.xp ∧
      s'.stickers = sessionThrottledW.stickers) :=
  ⟨⟨by decide, by decide⟩,
   C4_due_override catalogW srsDueW 10 sessionThrottledW (by decide)
     (by decide)⟩

end EnglishKidsMcp
